import Mathlib

/-!
Verification of the EduSense Scoring Engine specification against the
repository.  The repository's front end (under `src/frontend`) is embedded
directly from the TypeScript source; the back-end scoring engine
(`main.py`, referenced by the quick-start guide but not part of the
source tree provided) is modelled from the specification, §3–§4 and §7.
Scores are rational numbers; timestamps are integers (days for the
scoring engine, an opaque epoch count for the UI's `Date` comparisons).
-/

namespace EduSense

/-- Modelled from the spec: the closed `difficulty` enum of the Task data
model (§3). -/
inductive Difficulty where
  | easy
  | medium
  | hard
deriving DecidableEq, Repr

/-- Modelled from the spec: the closed `status` enum of the Task data
model (§3). -/
inductive Status where
  | pending
  | in_progress
  | completed
deriving DecidableEq, Repr

/-- Modelled from the spec: the Task record of §3 as the scoring engine
reads it.  `deadline`, `created_at`, `updated_at` are timestamps (integer
day counts in this embedding); `priority_score` is the optional cached
engine output, which the engine itself must never read. -/
structure Task where
  id : String
  title : String
  subject : String
  description : Option String
  deadline : Int
  difficulty : Difficulty
  status : Status
  priority_score : Option ℚ
  created_at : Int
  updated_at : Int
deriving DecidableEq, Repr

/-- Clamp a rational score into the interval [0, 10] (§4.1 Combination). -/
def clamp10 (x : ℚ) : ℚ :=
  if x < 0 then 0 else if 10 < x then 10 else x

/-- Round a rational score to one decimal place (§4.1 Combination: fixed
decimal precision for display stability). -/
def roundTo1 (x : ℚ) : ℚ :=
  ((round (10 * x) : ℤ) : ℚ) / 10

/-- Modelled from the spec: the deadline-proximity sub-score (§4.1 item 1)
of the missing back-end engine.  A monotonically non-increasing step
function of days-remaining: maximal (10) at or past the deadline, tapering
to 0 beyond a multi-week horizon. -/
def deadlineProximity (days : Int) : ℚ :=
  if days ≤ 0 then 10
  else if days ≤ 1 then 9
  else if days ≤ 3 then 8
  else if days ≤ 7 then 6
  else if days ≤ 14 then 4
  else if days ≤ 30 then 2
  else 0

/-- Modelled from the spec: the difficulty sub-score (§4.1 item 2), a
constant per enum category with hard > medium > easy. -/
def difficultyScore : Difficulty → ℚ
  | .easy => 3
  | .medium => 6
  | .hard => 10

/-- Modelled from the spec: the status sub-score (§4.1 item 3):
not-yet-started scores highest, in-progress lower, completed minimal. -/
def statusScore : Status → ℚ
  | .pending => 10
  | .in_progress => 5
  | .completed => 0

/-- Modelled from the spec: the overdue-penalty sub-score (§4.1 item 4) of
the missing back-end engine: zero for completed tasks, zero when the
deadline has not passed, otherwise scaling with the days overdue and
capped at the maximum 10. -/
def overduePenaltyScore (days : Int) : Status → ℚ
  | .completed => 0
  | _ => if days < 0 then ((min 10 (2 * (-days)) : Int) : ℚ) else 0

/-- Modelled from the spec: fixed weight of the deadline-proximity
sub-score (§4.1). -/
def wDeadline : ℚ := 2 / 5

/-- Modelled from the spec: fixed weight of the difficulty sub-score. -/
def wDifficulty : ℚ := 1 / 5

/-- Modelled from the spec: fixed weight of the status sub-score. -/
def wStatus : ℚ := 1 / 5

/-- Modelled from the spec: fixed weight of the overdue-penalty
sub-score. -/
def wOverdue : ℚ := 1 / 5

/-- Modelled from the spec: the label thresholds over the final score
(§4.1 Label mapping): ≥8 critical, ≥6 high, ≥4 medium, else low. -/
def priorityLabel (score : ℚ) : String :=
  if score ≥ 8 then "critical"
  else if score ≥ 6 then "high"
  else if score ≥ 4 then "medium"
  else "low"

/-- Modelled from the spec: the deterministic reason string for the
deadline-proximity sub-score (§4.1 Output contract). -/
def proximityReason (days : Int) : String :=
  if days < 0 then "Overdue by " ++ toString (-days) ++ " days"
  else if days = 0 then "Due today"
  else "Due in " ++ toString days ++ " days"

/-- Modelled from the spec: the deterministic reason string for the
difficulty sub-score. -/
def difficultyReason : Difficulty → String
  | .easy => "Marked easy difficulty"
  | .medium => "Marked medium difficulty"
  | .hard => "Marked hard difficulty"

/-- Modelled from the spec: the deterministic reason string for the
status sub-score. -/
def statusReason : Status → String
  | .pending => "Task not started yet"
  | .in_progress => "Task is in progress"
  | .completed => "Task is completed"

/-- Modelled from the spec: the deterministic reason string for the
overdue-penalty sub-score. -/
def overdueReason (days : Int) : Status → String
  | .completed => "Completed tasks carry no overdue penalty"
  | _ =>
    if days < 0 then "Past the deadline, penalty applies"
    else "Deadline has not passed"

/-- Modelled from the spec: the textual recommendation of the Priority
Score operation (§4.1 Output contract), a deterministic template over the
final score and status. -/
def prioritySuggestion (score : ℚ) : Status → String
  | .completed => "This task is already completed."
  | _ =>
    if score ≥ 8 then "Start this task immediately."
    else if score ≥ 6 then "Schedule time for this task today."
    else if score ≥ 4 then "Plan this task into your week."
    else "This task can wait a little."

/-- One weighted sub-score entry of the breakdown (§4.1 Output
contract). -/
structure SubScore where
  score : ℚ
  weight : ℚ
  weighted_score : ℚ
  reason : String
deriving DecidableEq, Repr

/-- The four-way breakdown of the Priority Score output (§4.1). -/
structure PriorityBreakdown where
  deadline_proximity : SubScore
  difficulty : SubScore
  status : SubScore
  overdue_penalty : SubScore
deriving DecidableEq, Repr

/-- The part of the Priority Score output determined purely by
(deadline, difficulty, status, now) — everything except the task id and
title echoes. -/
structure PriorityResult where
  final_score : ℚ
  priority_label : String
  days_remaining : Int
  breakdown : PriorityBreakdown
  suggestion : String
deriving DecidableEq, Repr

/-- The full Priority Score output contract (§4.1), as the front end's
`PriorityBreakdown` interface receives it. -/
structure PriorityOutput where
  task_id : String
  task_title : String
  result : PriorityResult
deriving DecidableEq, Repr

/-- Modelled from the spec: the weighted-sum combination of the four
sub-scores (§4.1 Combination), before clamping and rounding. -/
def priorityRaw (deadline : Int) (diff : Difficulty) (st : Status) (now : Int) : ℚ :=
  wDeadline * deadlineProximity (deadline - now)
    + wDifficulty * difficultyScore diff
    + wStatus * statusScore st
    + wOverdue * overduePenaltyScore (deadline - now) st

/-- Modelled from the spec: the core of the missing back-end Priority
Score operation (§4.1): weighted sum of the four sub-scores, rounded to
one decimal and clamped into [0, 10], with label, breakdown and
suggestion. -/
def priorityResult (deadline : Int) (diff : Difficulty) (st : Status) (now : Int) :
    PriorityResult :=
  let days := deadline - now
  let score := clamp10 (roundTo1 (priorityRaw deadline diff st now))
  { final_score := score
    priority_label := priorityLabel score
    days_remaining := days
    breakdown :=
      { deadline_proximity :=
          { score := deadlineProximity days
            weight := wDeadline
            weighted_score := wDeadline * deadlineProximity days
            reason := proximityReason days }
        difficulty :=
          { score := difficultyScore diff
            weight := wDifficulty
            weighted_score := wDifficulty * difficultyScore diff
            reason := difficultyReason diff }
        status :=
          { score := statusScore st
            weight := wStatus
            weighted_score := wStatus * statusScore st
            reason := statusReason st }
        overdue_penalty :=
          { score := overduePenaltyScore days st
            weight := wOverdue
            weighted_score := wOverdue * overduePenaltyScore days st
            reason := overdueReason days st } }
    suggestion := prioritySuggestion score st }

/-- Modelled from the spec: the missing back-end Priority Score operation
(§4.1) applied to a Task snapshot, echoing the task id and title and
reading only `deadline`, `difficulty` and `status` from it. -/
def computePriority (t : Task) (now : Int) : PriorityOutput :=
  { task_id := t.id
    task_title := t.title
    result := priorityResult t.deadline t.difficulty t.status now }

lemma clamp10_mem (x : ℚ) : 0 ≤ clamp10 x ∧ clamp10 x ≤ 10 := by
  unfold clamp10
  split_ifs <;> constructor <;> linarith

/-- C1: for every task (any deadline, difficulty, status) and any
evaluation instant, the final score is the weighted sum of the four
sub-scores, each multiplied by its fixed weight (the weights summing to
one), rounded to one decimal and clamped into [0, 10]; consequently the
returned final score always lies in [0, 10]. -/
theorem final_score_is_clamped_weighted_sum
    (deadline : Int) (diff : Difficulty) (st : Status) (now : Int) :
    (priorityResult deadline diff st now).final_score
        = clamp10 (roundTo1
            (wDeadline * deadlineProximity (deadline - now)
              + wDifficulty * difficultyScore diff
              + wStatus * statusScore st
              + wOverdue * overduePenaltyScore (deadline - now) st))
      ∧ wDeadline + wDifficulty + wStatus + wOverdue = 1
      ∧ 0 ≤ (priorityResult deadline diff st now).final_score
      ∧ (priorityResult deadline diff st now).final_score ≤ 10 := by
  refine ⟨rfl, by norm_num [wDeadline, wDifficulty, wStatus, wOverdue], ?_, ?_⟩
  · exact (clamp10_mem _).1
  · exact (clamp10_mem _).2

/-- C2: for every task whose status is completed, regardless of deadline
and evaluation instant (including deadlines arbitrarily far in the past),
the overdue-penalty sub-score reported by the Priority Score operation is
exactly 0. -/
theorem completed_overdue_penalty_zero
    (deadline : Int) (diff : Difficulty) (now : Int) :
    (priorityResult deadline diff Status.completed now).breakdown.overdue_penalty.score
      = 0 := rfl

/-- C3: the deadline-proximity sub-score is a function of days-remaining
alone (so any two tasks agreeing on difficulty and status compare through
it); it is monotonically non-increasing in days-remaining — fewer days
remaining never yields a smaller sub-score — and every negative
days-remaining value (already overdue) receives the maximum band 10. -/
theorem deadline_proximity_monotone_and_overdue_max :
    (∀ d1 d2 : Int, d1 ≤ d2 → deadlineProximity d2 ≤ deadlineProximity d1)
      ∧ (∀ d : Int, d < 0 → deadlineProximity d = 10) := by
  constructor
  · intro d1 d2 h
    unfold deadlineProximity
    split_ifs <;> first | (exfalso; omega) | norm_num
  · intro d hd
    unfold deadlineProximity
    rw [if_pos (le_of_lt hd)]

/-- Witness for C3 at concrete inputs: 2 ≤ 5 days remaining, and the
proximity score at 5 days does not exceed the one at 2 days; −3 days is
negative and receives the maximum band. -/
theorem deadline_proximity_monotone_witness :
    ((2 : Int) ≤ 5 ∧ deadlineProximity 5 ≤ deadlineProximity 2)
      ∧ ((-3 : Int) < 0 ∧ deadlineProximity (-3) = 10) :=
  ⟨⟨by decide, deadline_proximity_monotone_and_overdue_max.1 2 5 (by decide)⟩,
   ⟨by decide, deadline_proximity_monotone_and_overdue_max.2 (-3) (by decide)⟩⟩

/-- Modelled from the spec: one active (non-completed) task as the
Overload Risk operation receives it (§4.2 Inputs): title (echoed in
warnings), deadline and difficulty. -/
structure ActiveTask where
  title : String
  deadline : Int
  difficulty : Difficulty
deriving DecidableEq, Repr

/-- A structured warning of the Overload Risk output (§4.2 Warnings). -/
structure Warning where
  kind : String
  severity : String
  message : String
  tasks : List String
deriving DecidableEq, Repr

/-- One weighted risk factor of the Overload Risk breakdown (§4.2). -/
structure RiskFactor where
  score : ℚ
  weight : ℚ
  weighted_score : ℚ
deriving DecidableEq, Repr

/-- The four-way breakdown of the Overload Risk output (§4.2). -/
structure OverloadBreakdown where
  task_density : RiskFactor
  difficulty_cluster : RiskFactor
  weekly_load : RiskFactor
  deadline_spacing : RiskFactor
deriving DecidableEq, Repr

/-- The full Overload Risk output contract (§4.2). -/
structure OverloadOutput where
  risk_score : ℚ
  risk_level : String
  active_tasks : Nat
  warnings : List Warning
  suggestion : String
  breakdown : OverloadBreakdown
deriving DecidableEq, Repr

/-- Modelled from the spec: the hard tasks among the active set (§4.2
item 2). -/
def hardTasks (ts : List ActiveTask) : List ActiveTask :=
  ts.filter (fun t => decide (t.difficulty = Difficulty.hard))

/-- Modelled from the spec: the active tasks whose deadline falls within
the near-term window of the next 7 days (§4.2 item 3). -/
def weeklyTasks (now : Int) (ts : List ActiveTask) : List ActiveTask :=
  ts.filter (fun t => decide (t.deadline ≤ now + 7))

/-- Modelled from the spec: the task-density factor (§4.2 item 1), scaling
with the count of active tasks and saturating at 5 tasks. -/
def taskDensityScore (n : Nat) : ℚ :=
  min 10 (2 * (n : ℚ))

/-- Modelled from the spec: the difficulty-clustering factor (§4.2 item 2),
scaling with the proportion of hard tasks; explicitly 0 for an empty
active set so no ratio ever divides by zero. -/
def difficultyClusterScore (hard total : Nat) : ℚ :=
  if total = 0 then 0 else (hard : ℚ) * 10 / (total : ℚ)

/-- Modelled from the spec: the weekly-load factor (§4.2 item 3), scaling
with the count of near-term deadlines and saturating at 4 of them. -/
def weeklyLoadScore (k : Nat) : ℚ :=
  min 10 (5 * (k : ℚ) / 2)

/-- Absolute gaps (in days) between every pair of deadlines; the minimum
over them equals the minimum gap between consecutive deadlines in
chronological order. -/
def pairGaps : List Int → List Nat
  | [] => []
  | d :: rest => rest.map (fun e => (d - e).natAbs) ++ pairGaps rest

/-- Modelled from the spec: the deadline-spacing factor (§4.2 item 4),
scaling inversely with the minimum gap between deadlines; neutral 0 when
fewer than two tasks leave no pair to compare. -/
def deadlineSpacingScore (ts : List ActiveTask) : ℚ :=
  match (pairGaps (ts.map (·.deadline))).min? with
  | none => 0
  | some g =>
    if g = 0 then 10
    else if g ≤ 1 then 8
    else if g ≤ 2 then 6
    else if g ≤ 3 then 4
    else if g ≤ 7 then 2
    else 0

/-- Modelled from the spec: fixed weight of the task-density factor. -/
def wDensity : ℚ := 3 / 10

/-- Modelled from the spec: fixed weight of the difficulty-clustering
factor. -/
def wCluster : ℚ := 1 / 4

/-- Modelled from the spec: fixed weight of the weekly-load factor. -/
def wWeekly : ℚ := 1 / 4

/-- Modelled from the spec: fixed weight of the deadline-spacing
factor. -/
def wSpacing : ℚ := 1 / 5

/-- Modelled from the spec: the warning raised when many tasks are active
at once (§4.2 Warnings). -/
def densityWarning : Warning :=
  { kind := "task_density"
    severity := "high"
    message := "You have many active tasks at once"
    tasks := [] }

/-- Modelled from the spec: the warning raised when hard tasks cluster in
the active set, listing the hard task titles. -/
def clusterWarning (ts : List ActiveTask) : Warning :=
  { kind := "difficulty_cluster"
    severity := "high"
    message := "Several hard tasks are active at the same time"
    tasks := (hardTasks ts).map (·.title) }

/-- Modelled from the spec: the warning raised when many deadlines fall
within the next week, listing the near-term task titles. -/
def pileupWarning (now : Int) (ts : List ActiveTask) : Warning :=
  { kind := "weekly_load"
    severity := "medium"
    message := "Many deadlines fall within the next week"
    tasks := (weeklyTasks now ts).map (·.title) }

/-- Modelled from the spec: the warning list of the Overload Risk
operation (§4.2 Warnings); every threshold check contributes its warning
independently, so all simultaneously firing warnings are returned. -/
def overloadWarnings (now : Int) (ts : List ActiveTask) : List Warning :=
  (if ts.length ≥ 5 then [densityWarning] else [])
    ++ (if (hardTasks ts).length ≥ 3 then [clusterWarning ts] else [])
    ++ (if (weeklyTasks now ts).length ≥ 3 then [pileupWarning now ts] else [])

/-- Modelled from the spec: the neutral recommendation returned for an
empty active set (§4.2 Edge cases). -/
def neutralSuggestion : String :=
  "No active tasks right now. A good time to plan ahead."

/-- Modelled from the spec: the textual recommendation of the Overload
Risk operation, a deterministic template over the active count and the
risk score. -/
def overloadSuggestion (n : Nat) (score : ℚ) : String :=
  if n = 0 then neutralSuggestion
  else if score ≥ 8 then "Your workload is very heavy. Consider rescheduling some deadlines."
  else if score ≥ 6 then "Your workload is heavy. Start the hardest tasks early."
  else if score ≥ 4 then "Your workload is moderate. Keep a steady pace."
  else "Your workload looks manageable."

/-- Modelled from the spec: the missing back-end Overload Risk operation
(§4.2): weighted sum of the four risk factors, rounded and clamped into
[0, 10], with level, warnings, suggestion and breakdown. -/
def overloadRisk (now : Int) (ts : List ActiveTask) : OverloadOutput :=
  let n := ts.length
  let density := taskDensityScore n
  let cluster := difficultyClusterScore (hardTasks ts).length n
  let weekly := weeklyLoadScore (weeklyTasks now ts).length
  let spacing := deadlineSpacingScore ts
  let score := clamp10 (roundTo1
    (wDensity * density + wCluster * cluster + wWeekly * weekly + wSpacing * spacing))
  { risk_score := score
    risk_level := priorityLabel score
    active_tasks := n
    warnings := overloadWarnings now ts
    suggestion := overloadSuggestion n score
    breakdown :=
      { task_density := ⟨density, wDensity, wDensity * density⟩
        difficulty_cluster := ⟨cluster, wCluster, wCluster * cluster⟩
        weekly_load := ⟨weekly, wWeekly, wWeekly * weekly⟩
        deadline_spacing := ⟨spacing, wSpacing, wSpacing * spacing⟩ } }

/-- C4: for any evaluation instant, the Overload Risk operation applied to
the empty collection of active tasks succeeds (the clustering ratio is
guarded, so nothing divides by zero) and returns risk score 0, an empty
warning list and the neutral suggestion. -/
theorem overload_risk_empty (now : Int) :
    (overloadRisk now []).risk_score = 0
      ∧ (overloadRisk now []).warnings = []
      ∧ (overloadRisk now []).suggestion = neutralSuggestion := by
  refine ⟨?_, rfl, rfl⟩
  simp only [overloadRisk]
  norm_num [taskDensityScore, difficultyClusterScore, weeklyLoadScore,
    deadlineSpacingScore, pairGaps, hardTasks, weeklyTasks,
    wDensity, wCluster, wWeekly, wSpacing, roundTo1, clamp10]

/-- C6: every warning whose threshold check fires is present in the
returned warning list — when several conditions hold simultaneously all
of the corresponding warnings appear, not only the first. -/
theorem overload_warnings_all_fire (now : Int) (ts : List ActiveTask) :
    (ts.length ≥ 5 → densityWarning ∈ (overloadRisk now ts).warnings)
      ∧ ((hardTasks ts).length ≥ 3 → clusterWarning ts ∈ (overloadRisk now ts).warnings)
      ∧ ((weeklyTasks now ts).length ≥ 3 →
          pileupWarning now ts ∈ (overloadRisk now ts).warnings) := by
  refine ⟨fun h1 => ?_, fun h2 => ?_, fun h3 => ?_⟩
  · simp [overloadRisk, overloadWarnings, h1]
  · simp [overloadRisk, overloadWarnings, h2]
  · simp [overloadRisk, overloadWarnings, h3]

/-- Scenario input for the warning witness: five active tasks, three of
them hard, three due within the next week of instant 0. -/
def sampleActive : List ActiveTask :=
  [⟨"A", 1, .hard⟩, ⟨"B", 2, .hard⟩, ⟨"C", 3, .hard⟩,
   ⟨"D", 20, .easy⟩, ⟨"E", 30, .medium⟩]

/-- Witness for C6 at a concrete input where all three threshold checks
fire simultaneously: all three warnings appear in the returned list. -/
theorem overload_warnings_witness :
    (sampleActive.length ≥ 5
        ∧ densityWarning ∈ (overloadRisk 0 sampleActive).warnings)
      ∧ ((hardTasks sampleActive).length ≥ 3
        ∧ clusterWarning sampleActive ∈ (overloadRisk 0 sampleActive).warnings)
      ∧ ((weeklyTasks 0 sampleActive).length ≥ 3
        ∧ pileupWarning 0 sampleActive ∈ (overloadRisk 0 sampleActive).warnings) :=
  ⟨⟨by decide, (overload_warnings_all_fire 0 sampleActive).1 (by decide)⟩,
   ⟨by decide, (overload_warnings_all_fire 0 sampleActive).2.1 (by decide)⟩,
   ⟨by decide, (overload_warnings_all_fire 0 sampleActive).2.2 (by decide)⟩⟩

/-- C7: both operations are deterministic pure functions of their inputs.
The Priority Score result is fully determined by (deadline, difficulty,
status, now) — two task snapshots agreeing on those fields yield equal
results whatever their other fields (id, title, cached priority_score,
timestamps) — and two Overload Risk calls on identical collections yield
identical outputs, every field equal. -/
theorem scoring_operations_pure :
    (∀ (t1 t2 : Task) (now : Int),
        t1.deadline = t2.deadline → t1.difficulty = t2.difficulty →
        t1.status = t2.status →
        (computePriority t1 now).result = (computePriority t2 now).result)
      ∧ (∀ (ts1 ts2 : List ActiveTask) (now : Int),
          ts1 = ts2 → overloadRisk now ts1 = overloadRisk now ts2) := by
  constructor
  · intro t1 t2 now h1 h2 h3
    show priorityResult t1.deadline t1.difficulty t1.status now
        = priorityResult t2.deadline t2.difficulty t2.status now
    rw [h1, h2, h3]
  · intro ts1 ts2 now h
    rw [h]

/-- Snapshot used in the purity witness: core fields (deadline 5, hard,
pending), everything else in one state. -/
def sampleTaskA : Task :=
  ⟨"t1", "Assignment 3", "Math", none, 5, .hard, .pending, none, 0, 0⟩

/-- Snapshot agreeing with `sampleTaskA` on deadline, difficulty and
status, but differing in id, title, subject, description, cached
priority_score and timestamps. -/
def sampleTaskB : Task :=
  ⟨"t2", "Other title", "Physics", some "notes", 5, .hard, .pending, some 3, 11, 12⟩

/-- Witness for C7 at concrete inputs: the two snapshots agree on the
scoring fields and receive identical results; a repeated Overload Risk
call on the same collection returns an identical output. -/
theorem scoring_operations_pure_witness :
    (sampleTaskA.deadline = sampleTaskB.deadline
        ∧ sampleTaskA.difficulty = sampleTaskB.difficulty
        ∧ sampleTaskA.status = sampleTaskB.status)
      ∧ (computePriority sampleTaskA 2).result = (computePriority sampleTaskB 2).result
      ∧ overloadRisk 0 sampleActive = overloadRisk 0 sampleActive :=
  ⟨⟨rfl, rfl, rfl⟩,
   scoring_operations_pure.1 sampleTaskA sampleTaskB 2 rfl rfl rfl,
   scoring_operations_pure.2 sampleActive sampleActive 0 rfl⟩

/-- The error kinds of the scoring endpoints (§7): missing task and
malformed input data. -/
inductive ScoringError where
  | notFound
  | validation
deriving DecidableEq, Repr

/-- Modelled from the spec: a task row as the Priority Score endpoint
receives it, before deadline validation — the deadline is an optional raw
string (absent, or possibly not a valid timestamp). -/
structure RawTask where
  id : String
  title : String
  subject : String
  deadline : Option String
  difficulty : Difficulty
  status : Status
deriving DecidableEq, Repr

/-- Digit-by-digit accumulator for timestamp parsing: consumes decimal
digits, failing on any other character. -/
def digitsToNat (acc : Nat) : List Char → Option Nat
  | [] => some acc
  | c :: cs =>
    if '0' ≤ c ∧ c ≤ '9' then digitsToNat (10 * acc + (c.toNat - 48)) cs
    else none

/-- Modelled from the spec: timestamp validation for the missing back-end
(§7).  In this embedding a valid timestamp literal is a non-empty
(possibly negative) decimal integer; anything else is malformed. -/
def parseTimestamp (s : String) : Option Int :=
  match s.data with
  | [] => none
  | ['-'] => none
  | '-' :: c :: cs => (digitsToNat 0 (c :: cs)).map (fun n => -(n : Int))
  | cs => (digitsToNat 0 cs).map (fun n => (n : Int))

/-- Modelled from the spec: deadline validation — a missing deadline or a
malformed timestamp string both fail to produce an instant. -/
def parseDeadline : Option String → Option Int
  | none => none
  | some s => parseTimestamp s

/-- Modelled from the spec: the Priority Score endpoint of the missing
back-end (§4.1, §7): validates the task's deadline and either fails with
a Validation error or returns the computed output; it never substitutes a
default instant. -/
def priorityChecked (t : RawTask) (now : Int) : Except ScoringError PriorityOutput :=
  match parseDeadline t.deadline with
  | none => Except.error ScoringError.validation
  | some d =>
    Except.ok
      { task_id := t.id
        task_title := t.title
        result := priorityResult d t.difficulty t.status now }

/-- C8: when the Priority Score operation is given a task whose deadline
is missing or malformed (does not parse as a timestamp), it fails with a
Validation error and never returns a score for the task — in particular
no default instant is silently substituted. -/
theorem malformed_deadline_validation_error (t : RawTask) (now : Int)
    (h : parseDeadline t.deadline = none) :
    priorityChecked t now = Except.error ScoringError.validation
      ∧ ∀ out : PriorityOutput, priorityChecked t now ≠ Except.ok out := by
  refine ⟨?_, fun out => ?_⟩ <;> simp [priorityChecked, h]

/-- Raw task with a missing deadline. -/
def rawMissing : RawTask := ⟨"r1", "Essay", "English", none, .easy, .pending⟩

/-- Raw task with a malformed deadline string. -/
def rawMalformed : RawTask :=
  ⟨"r2", "Essay", "English", some "tomorrow", .easy, .pending⟩

/-- Witness for C8 at concrete inputs: a missing deadline and the
malformed string "tomorrow" both fail validation and yield the Validation
error. -/
theorem malformed_deadline_witness :
    (parseDeadline rawMissing.deadline = none
        ∧ priorityChecked rawMissing 0 = Except.error ScoringError.validation)
      ∧ (parseDeadline rawMalformed.deadline = none
        ∧ priorityChecked rawMalformed 0 = Except.error ScoringError.validation) :=
  ⟨⟨by decide, (malformed_deadline_validation_error rawMissing 0 (by decide)).1⟩,
   ⟨by decide, (malformed_deadline_validation_error rawMalformed 0 (by decide)).1⟩⟩

namespace Frontend

/-- The Task interface of the front end
(src/frontend/src/app/page.tsx, lines 24–35): `difficulty` and `status`
travel as plain strings, `deadline` as a timestamp (integer epoch count in
this embedding, standing for the `Date` value it parses to), and
`priority_score` as a nullable number. -/
structure Task where
  id : String
  title : String
  description : Option String
  subject : String
  deadline : Int
  difficulty : String
  status : String
  priority_score : Option ℚ
  created_at : Int
  updated_at : Int
deriving DecidableEq, Repr

/-- The style record returned by `getPriorityStyle` on the tasks page
(src/frontend/src/app/page.tsx, lines 199–205). -/
structure PriorityStyle where
  bg : String
  text : String
  dot : String
  label : String
deriving DecidableEq, Repr

/-- `getPriorityStyle` of the tasks page
(src/frontend/src/app/page.tsx, lines 199–205).  The JavaScript guard
`if (!score)` is truthy falsiness: it takes the placeholder branch for
`null` and also for the number 0. -/
def getPriorityStyle : Option ℚ → PriorityStyle
  | none => ⟨"bg-slate-100", "text-slate-500", "bg-slate-400", "—"⟩
  | some score =>
    if score = 0 then ⟨"bg-slate-100", "text-slate-500", "bg-slate-400", "—"⟩
    else if score ≥ 8 then
      ⟨"bg-red-50", "text-red-600",
        "bg-red-500 shadow-[0_0_6px_rgba(239,68,68,0.4)]", "Critical"⟩
    else if score ≥ 6 then
      ⟨"bg-orange-50", "text-orange-600",
        "bg-orange-500 shadow-[0_0_6px_rgba(249,115,22,0.4)]", "High"⟩
    else if score ≥ 4 then
      ⟨"bg-amber-50", "text-amber-600",
        "bg-amber-500 shadow-[0_0_6px_rgba(245,158,11,0.4)]", "Medium"⟩
    else
      ⟨"bg-emerald-50", "text-emerald-600",
        "bg-emerald-500 shadow-[0_0_6px_rgba(16,185,129,0.4)]", "Low"⟩

/-- The label-less style record returned by `getPriorityStyle` on the
dashboard page (src/frontend/src/app/(dashboard)/dashboard/page.tsx,
lines 278–284). -/
structure PriorityStyleDash where
  bg : String
  text : String
  dot : String
deriving DecidableEq, Repr

/-- `getPriorityStyle` of the dashboard page
(src/frontend/src/app/(dashboard)/dashboard/page.tsx, lines 278–284):
identical thresholds and `!score` guard, without the label field. -/
def getPriorityStyleDash : Option ℚ → PriorityStyleDash
  | none => ⟨"bg-slate-100", "text-slate-500", "bg-slate-400"⟩
  | some score =>
    if score = 0 then ⟨"bg-slate-100", "text-slate-500", "bg-slate-400"⟩
    else if score ≥ 8 then
      ⟨"bg-red-50", "text-red-600",
        "bg-red-500 shadow-[0_0_6px_rgba(239,68,68,0.4)]"⟩
    else if score ≥ 6 then
      ⟨"bg-orange-50", "text-orange-600",
        "bg-orange-500 shadow-[0_0_6px_rgba(249,115,22,0.4)]"⟩
    else if score ≥ 4 then
      ⟨"bg-amber-50", "text-amber-600",
        "bg-amber-500 shadow-[0_0_6px_rgba(245,158,11,0.4)]"⟩
    else
      ⟨"bg-emerald-50", "text-emerald-600",
        "bg-emerald-500 shadow-[0_0_6px_rgba(16,185,129,0.4)]"⟩

/-- The filter predicate behind the Overdue statistic of both dashboards
(src/frontend/src/app/page.tsx, lines 156–158, and
src/frontend/src/app/(dashboard)/dashboard/page.tsx, lines 246–248):
deadline strictly before now and status not "completed". -/
def isCountedOverdue (now : Int) (t : Task) : Bool :=
  decide (t.deadline < now) && (t.status != "completed")

/-- The Overdue statistic of the tasks page
(src/frontend/src/app/page.tsx, lines 156–158). -/
def overdueTasksHome (now : Int) (tasks : List Task) : Nat :=
  (tasks.filter (isCountedOverdue now)).length

/-- The Overdue statistic of the dashboard page
(src/frontend/src/app/(dashboard)/dashboard/page.tsx, lines 246–248),
textually identical to the tasks-page one. -/
def overdueTasksDash (now : Int) (tasks : List Task) : Nat :=
  (tasks.filter (isCountedOverdue now)).length

end Frontend

/-- C5 counterexample: at final score 0 — a value inside [0, 10] — the
score computation's label mapping says "low", but the UI's
`getPriorityStyle` returns the placeholder label "—", which is not the
"Low" label; the thresholds therefore do not agree over all of
[0, 10]. -/
theorem priority_label_mismatch_at_zero :
    ((0 : ℚ) ≤ 0 ∧ (0 : ℚ) ≤ 10)
      ∧ priorityLabel 0 = "low"
      ∧ (Frontend.getPriorityStyle (some 0)).label = "—"
      ∧ (Frontend.getPriorityStyle (some 0)).label ≠ "Low" := by
  decide

/-- C5 amended: for every final score strictly between 0 and 10 inclusive
of 10 — that is, excluding exactly 0, which the UI renders as the
placeholder — the label the UI's `getPriorityStyle` assigns agrees band
for band with the label the score computation assigns (≥8 critical,
≥6 high, ≥4 medium, else low). -/
theorem priority_label_agreement_positive (s : ℚ) (h0 : 0 < s) (_h10 : s ≤ 10) :
    ((Frontend.getPriorityStyle (some s)).label = "Critical" ↔ priorityLabel s = "critical")
      ∧ ((Frontend.getPriorityStyle (some s)).label = "High" ↔ priorityLabel s = "high")
      ∧ ((Frontend.getPriorityStyle (some s)).label = "Medium" ↔ priorityLabel s = "medium")
      ∧ ((Frontend.getPriorityStyle (some s)).label = "Low" ↔ priorityLabel s = "low") := by
  simp only [Frontend.getPriorityStyle, priorityLabel, if_neg h0.ne']
  split_ifs <;> exact (by decide)

/-- Witness for the amended C5 at the concrete score 5: in range, and the
UI's "Medium" band coincides with the computation's "medium" band. -/
theorem priority_label_agreement_witness :
    ((0 : ℚ) < 5 ∧ (5 : ℚ) ≤ 10)
      ∧ ((Frontend.getPriorityStyle (some 5)).label = "Medium"
          ↔ priorityLabel 5 = "medium") :=
  ⟨⟨by decide, by decide⟩,
   (priority_label_agreement_positive 5 (by decide) (by decide)).2.2.1⟩

/-- C9: the UI's `getPriorityStyle` treats a priority score of exactly 0
the same as a null score: both receive the neutral placeholder style
(label "—" in the tasks-page variant, the slate style in the dashboard
variant), not the "Low" style, so a task whose final score is exactly 0
is rendered without a priority label. -/
theorem priority_style_zero_as_null :
    Frontend.getPriorityStyle (some 0) = Frontend.getPriorityStyle none
      ∧ (Frontend.getPriorityStyle (some 0)).label = "—"
      ∧ (Frontend.getPriorityStyle (some 0)).label ≠ "Low"
      ∧ Frontend.getPriorityStyleDash (some 0) = Frontend.getPriorityStyleDash none := by
  decide

/-- C10: in both task dashboards a task is counted in the Overdue
statistic exactly when its deadline is strictly before the current
instant and its status is not "completed"; hence a completed task is
never counted, whatever its deadline, and both dashboards compute the
same statistic. -/
theorem overdue_statistic_characterization (now : Int) (tasks : List Frontend.Task)
    (t : Frontend.Task) :
    (Frontend.isCountedOverdue now t = true
        ↔ (t.deadline < now ∧ t.status ≠ "completed"))
      ∧ (t.status = "completed" → Frontend.isCountedOverdue now t = false)
      ∧ Frontend.overdueTasksHome now tasks = Frontend.overdueTasksDash now tasks := by
  refine ⟨?_, fun hc => ?_, rfl⟩
  · simp [Frontend.isCountedOverdue]
  · simp [Frontend.isCountedOverdue, hc]

/-- Front-end task used in the overdue witness: completed, with a
deadline far in the past. -/
def sampleCompletedUi : Frontend.Task :=
  ⟨"u1", "Done task", none, "Math", 0, "easy", "completed", none, 0, 0⟩

/-- Witness for C10 at a concrete input: a completed task whose deadline
(0) lies strictly before the instant 100 is still not counted overdue. -/
theorem overdue_statistic_witness :
    sampleCompletedUi.status = "completed"
      ∧ Frontend.isCountedOverdue 100 sampleCompletedUi = false
      ∧ (Frontend.isCountedOverdue 100 sampleCompletedUi = true
          ↔ (sampleCompletedUi.deadline < 100 ∧ sampleCompletedUi.status ≠ "completed")) :=
  ⟨rfl,
   (overdue_statistic_characterization 100 [] sampleCompletedUi).2.1 rfl,
   (overdue_statistic_characterization 100 [] sampleCompletedUi).1⟩

end EduSense
